import Mathlib

/-!
# The reconciliation loop of the Jupyterlab operator

A shallow embedding of `controllers/jupyterlab_controller.go`, `controllers/ports.go`
and `api/v1alpha1/jupyterlab_types.go`.

* Kubernetes objects are structures; a Go struct that embeds `metav1.ObjectMeta`
  extends `ObjectMeta` here, so `m.Name` and `m.Namespace` read as in the source.
* A Go slice of strings is `Option (List String)`: `none` is the nil slice, `some xs`
  a non-nil slice, so that `reflect.DeepEqual` on slices is equality of these values.
* An `int32` is an `Int`; the code only copies and compares these numbers.
* The cluster is a `Store`; the calls of `client.Client` are functions on it that
  return an error value or a result. A `Faults` record can make any call of one
  invocation fail: a read with an error other than NotFound (a lost connection), a write
  with any error (a conflict, a creation that lost a race). NotFound on a read is the
  answer of the store for a key it does not hold.
* `Reconcile` returns its outcome, the store it leaves and the list of the store
  calls it issued, each with the error it returned.
-/

set_option linter.dupNamespace false

namespace JupyterlabOperator

/-! ## API objects -/

/-- A Go `map[string]string`, as the list of its entries. -/
abbrev Labels := List (String × String)

/-- The key `types.NamespacedName` of an object. -/
structure NamespacedName where
  Namespace : String
  Name : String
deriving DecidableEq, Repr

/-- The owner reference of `metav1`: the fields the controller reference sets. -/
structure OwnerReference where
  Kind : String
  Name : String
  Controller : Bool
  BlockOwnerDeletion : Bool
deriving DecidableEq, Repr

/-- The fields of `metav1.ObjectMeta` the controller reads or writes. -/
structure ObjectMeta where
  Name : String
  Namespace : String
  Labels : Labels
  OwnerReferences : List OwnerReference
deriving DecidableEq, Repr

/-- JupyterlabSpec of `jupyterlab_types.go`. -/
structure JupyterlabSpec where
  Size : Int
deriving DecidableEq, Repr

/-- JupyterlabStatus of `jupyterlab_types.go`; `Nodes` is a Go slice. -/
structure JupyterlabStatus where
  Nodes : Option (List String)
deriving DecidableEq, Repr

/-- Jupyterlab of `jupyterlab_types.go`. -/
structure Jupyterlab extends ObjectMeta where
  Spec : JupyterlabSpec
  Status : JupyterlabStatus
deriving DecidableEq, Repr

/-- The container port of `corev1`. -/
structure ContainerPort where
  Protocol : String
  ContainerPort : Int
deriving DecidableEq, Repr

/-- The container of `corev1`. -/
structure Container where
  Name : String
  Image : String
  Ports : List ContainerPort
deriving DecidableEq, Repr

/-- The pod spec of `corev1`. -/
structure PodSpec where
  Containers : List Container
deriving DecidableEq, Repr

/-- The pod template of `corev1`. -/
structure PodTemplateSpec extends ObjectMeta where
  Spec : PodSpec
deriving DecidableEq, Repr

/-- The label selector of `metav1`. -/
structure LabelSelector where
  MatchLabels : Labels
deriving DecidableEq, Repr

/-- The deployment spec of `appsv1`; `Replicas` and `Selector` are pointers. -/
structure DeploymentSpec where
  Replicas : Option Int
  Selector : Option LabelSelector
  Template : PodTemplateSpec
deriving DecidableEq, Repr

/-- The deployment of `appsv1`. -/
structure Deployment extends ObjectMeta where
  Spec : DeploymentSpec
deriving DecidableEq, Repr

/-- The service port of `corev1`. -/
structure ServicePort where
  Name : String
  Port : Int
deriving DecidableEq, Repr

/-- The service spec of `corev1`. -/
structure ServiceSpec where
  Ports : List ServicePort
  Selector : Labels
deriving DecidableEq, Repr

/-- The service of `corev1`. -/
structure Service extends ObjectMeta where
  Spec : ServiceSpec
deriving DecidableEq, Repr

/-- The route spec of `routev1`: the service the route targets and the target port. -/
structure RouteSpec where
  To : String
  TargetPort : Int
deriving DecidableEq, Repr

/-- The route of `routev1`. -/
structure Route extends ObjectMeta where
  Spec : RouteSpec
deriving DecidableEq, Repr

/-- The pod of `corev1`. -/
structure Pod extends ObjectMeta where
  Spec : PodSpec
deriving DecidableEq, Repr

/-- The key under which the store holds an object. -/
def ObjectMeta.key (o : ObjectMeta) : NamespacedName :=
  { Namespace := o.Namespace, Name := o.Name }

/-! ## `ports.go` -/

/-- The type `port` of `ports.go`. -/
structure port where
  name : String
  port : Int
deriving DecidableEq, Repr

/-- The variable `jupyterlabPort` of `ports.go`. -/
def jupyterlabPort : port := { name := "jupyterlab", port := 8888 }

/-- The method `asServicePort` of `ports.go`. -/
def port.asServicePort (p : JupyterlabOperator.port) : ServicePort :=
  { Name := p.name, Port := p.port }

/-- The method `asServicePorts` of `ports.go`. -/
def port.asServicePorts (p : JupyterlabOperator.port) : List ServicePort :=
  [p.asServicePort]

/-! ## Builders -/

/-- labelsForJupyterlab returns the labels for selecting the resources belonging to
the given jupyterlab CR name. -/
def labelsForJupyterlab (name : String) : Labels :=
  [("app", "jupyterlab"), ("jupyterlab_cr", name)]

/-- The function `selectorsForService` of the controller (it has no caller). -/
def selectorsForService (name : String) : Labels :=
  [("app", name)]

/-- The controller reference that `ctrl.SetControllerReference` writes for an owner. -/
def controllerRef (owner : Jupyterlab) : OwnerReference :=
  { Kind := "Jupyterlab", Name := owner.Name, Controller := true, BlockOwnerDeletion := true }

/-- The library call `ctrl.SetControllerReference(owner, controlled, scheme)`, by its
documented effect on the metadata of `controlled`: the controller reference to the
owner is recorded unless the object already has a controller. The source discards the
error the call returns, so only this effect is modelled. -/
def SetControllerReference (owner : Jupyterlab) (controlled : ObjectMeta) : ObjectMeta :=
  if controlled.OwnerReferences.any (fun r => r.Controller) then controlled
  else { controlled with OwnerReferences := controlled.OwnerReferences ++ [controllerRef owner] }

/-- deploymentForJupyterlab returns a jupyterlab Deployment object. -/
def deploymentForJupyterlab (m : Jupyterlab) : Deployment :=
  let ls := labelsForJupyterlab m.Name
  let replicas := m.Spec.Size
  let dep : Deployment :=
    { Name := m.Name
      Namespace := m.Namespace
      Labels := []
      OwnerReferences := []
      Spec :=
        { Replicas := some replicas
          Selector := some { MatchLabels := ls }
          Template :=
            { Name := ""
              Namespace := ""
              Labels := ls
              OwnerReferences := []
              Spec :=
                { Containers :=
                    [{ Name := "jupyterlab"
                       Image := "quay.io/aaziz/jupyterlab:latest"
                       Ports := [{ Protocol := "TCP", ContainerPort := 8888 }] }] } } } }
  { dep with toObjectMeta := SetControllerReference m dep.toObjectMeta }

/-- serviceForJupyterLab returns a jupyterLab Service object. -/
def serviceForJupyterLab (m : Jupyterlab) : Service :=
  let selectors := labelsForJupyterlab m.Name
  let service : Service :=
    { Name := m.Name
      Namespace := m.Namespace
      Labels := []
      OwnerReferences := []
      Spec := { Ports := [], Selector := [] } }
  let service := { service with
    Spec := { Ports := jupyterlabPort.asServicePorts, Selector := selectors } }
  { service with toObjectMeta := SetControllerReference m service.toObjectMeta }

/-- Modelled from the spec: `newRoute(name, namespace, serviceName, port)` is called by
Reconcile but its source file is not part of the sources. By the spec the route
resource is keyed by the name it is given, within the namespace, and "targets the
NetworkResource's name and fixed port": the route named `name` in `nspace` whose
target is the service `serviceName` at `targetPort`. -/
def newRoute (name nspace serviceName : String) (targetPort : Int) : Route :=
  { Name := name
    Namespace := nspace
    Labels := []
    OwnerReferences := []
    Spec := { To := serviceName, TargetPort := targetPort } }

/-- The route that Reconcile builds in its route branch: the value of `newRoute` at the
arguments of the source, with the controller reference set on it before the create. -/
def routeForJupyterlab (jupyterlab : Jupyterlab) : Route :=
  let route := newRoute jupyterlab.Name jupyterlab.Namespace (jupyterlab.Name ++ "-server") 8888
  { route with toObjectMeta := SetControllerReference jupyterlab route.toObjectMeta }

/-- getPodNames returns the pod names of the array of pods passed in: the loop appends
to a nil slice, so no pod gives the nil slice. -/
def getPodNames (pods : List Pod) : Option (List String) :=
  pods.foldl (fun podNames pod => some (podNames.getD [] ++ [pod.Name])) none

/-- The selector `client.MatchingLabels`: every entry of the selector is an entry of
the labels. -/
def matchesLabels (selector : Labels) (labels : Labels) : Bool :=
  selector.all (fun kv => decide (labels.lookup kv.1 = some kv.2))

/-! ## The store and the client -/

deriving instance DecidableEq for Except

/-- The errors of the API client that the controller tells apart. -/
inductive APIError where
  | NotFound
  | AlreadyExists
  | Conflict
  | Other (reason : String)
deriving DecidableEq, Repr

/-- The test `errors.IsNotFound`. -/
def IsNotFound (err : APIError) : Bool :=
  match err with
  | .NotFound => true
  | _ => false

/-- The objects of the cluster, by kind. -/
structure Store where
  jupyterlabs : List Jupyterlab
  deployments : List Deployment
  services : List Service
  routes : List Route
  pods : List Pod
deriving DecidableEq, Repr

/-- The failure, if any, that each store call of one invocation is made to end in: for
a get the reason of an error that is not NotFound, for the other calls the error. -/
structure Faults where
  getJupyterlab : Option String
  getDeployment : Option String
  createDeployment : Option APIError
  updateDeployment : Option APIError
  getService : Option String
  createService : Option APIError
  getRoute : Option String
  createRoute : Option APIError
  listPods : Option APIError
  statusUpdate : Option APIError
deriving DecidableEq, Repr

/-- No call is made to fail: each call answers from the store. -/
def noFaults : Faults :=
  { getJupyterlab := none, getDeployment := none, createDeployment := none,
    updateDeployment := none, getService := none, createService := none,
    getRoute := none, createRoute := none, listPods := none, statusUpdate := none }

/-- The object stored under a key. -/
def lookupKey {α : Type} (key : α → NamespacedName) (xs : List α) (k : NamespacedName) :
    Option α :=
  xs.find? (fun x => decide (key x = k))

/-- The call `Get`: the injected failure, else the stored object, else NotFound. -/
def clientGet {α : Type} (fault : Option String) (key : α → NamespacedName) (xs : List α)
    (k : NamespacedName) : Except APIError α :=
  match fault with
  | some reason => .error (.Other reason)
  | none =>
    match lookupKey key xs k with
    | some x => .ok x
    | none => .error .NotFound

/-- The call `Create`: the injected error, else AlreadyExists when the key is taken,
else the object is stored. -/
def clientCreate {α : Type} (fault : Option APIError) (key : α → NamespacedName)
    (xs : List α) (x : α) : Option APIError × List α :=
  match fault with
  | some err => (some err, xs)
  | none =>
    if (lookupKey key xs (key x)).isSome then (some .AlreadyExists, xs)
    else (none, xs ++ [x])

/-- The call `Update`: the injected error, else NotFound when the key is absent, else
the stored object is replaced. -/
def clientUpdate {α : Type} (fault : Option APIError) (key : α → NamespacedName)
    (xs : List α) (x : α) : Option APIError × List α :=
  match fault with
  | some err => (some err, xs)
  | none =>
    if (lookupKey key xs (key x)).isSome then
      (none, xs.map (fun y => if key y = key x then x else y))
    else (some .NotFound, xs)

/-- The call `Status().Update`: as `Update`, but only the status of the stored object
is replaced. -/
def clientStatusUpdate (fault : Option APIError) (xs : List Jupyterlab) (x : Jupyterlab) :
    Option APIError × List Jupyterlab :=
  match fault with
  | some err => (some err, xs)
  | none =>
    if (lookupKey (fun j : Jupyterlab => j.key) xs x.key).isSome then
      (none, xs.map (fun y => if y.key = x.key then { y with Status := x.Status } else y))
    else (some .NotFound, xs)

/-- The pods that the options `InNamespace` and `MatchingLabels` of a list call select,
in the order of the store. -/
def selectPods (pods : List Pod) (nspace : String) (selector : Labels) : List Pod :=
  pods.filter (fun p => decide (p.Namespace = nspace) && matchesLabels selector p.Labels)

/-- The call `List` for pods, with the options `InNamespace` and `MatchingLabels`. -/
def clientListPods (fault : Option APIError) (pods : List Pod) (nspace : String)
    (selector : Labels) : Except APIError (List Pod) :=
  match fault with
  | some err => .error err
  | none => .ok (selectPods pods nspace selector)

/-- The call `r.Get` for a Jupyterlab. -/
def Client.getJupyterlab (f : Faults) (s : Store) (k : NamespacedName) :
    Except APIError Jupyterlab :=
  clientGet f.getJupyterlab (fun x : Jupyterlab => x.key) s.jupyterlabs k

/-- The call `r.Get` for a Deployment. -/
def Client.getDeployment (f : Faults) (s : Store) (k : NamespacedName) :
    Except APIError Deployment :=
  clientGet f.getDeployment (fun x : Deployment => x.key) s.deployments k

/-- The call `r.Get` for a Service. -/
def Client.getService (f : Faults) (s : Store) (k : NamespacedName) :
    Except APIError Service :=
  clientGet f.getService (fun x : Service => x.key) s.services k

/-- The call `r.Get` for a Route. -/
def Client.getRoute (f : Faults) (s : Store) (k : NamespacedName) :
    Except APIError Route :=
  clientGet f.getRoute (fun x : Route => x.key) s.routes k

/-- The call `r.Create` for a Deployment: the error returned and the store left. -/
def Client.createDeployment (f : Faults) (s : Store) (dep : Deployment) :
    Option APIError × Store :=
  let r := clientCreate f.createDeployment (fun x : Deployment => x.key) s.deployments dep
  (r.1, { s with deployments := r.2 })

/-- The call `r.Update` for a Deployment: the error returned and the store left. -/
def Client.updateDeployment (f : Faults) (s : Store) (dep : Deployment) :
    Option APIError × Store :=
  let r := clientUpdate f.updateDeployment (fun x : Deployment => x.key) s.deployments dep
  (r.1, { s with deployments := r.2 })

/-- The call `r.Create` for a Service: the error returned and the store left. -/
def Client.createService (f : Faults) (s : Store) (service : Service) :
    Option APIError × Store :=
  let r := clientCreate f.createService (fun x : Service => x.key) s.services service
  (r.1, { s with services := r.2 })

/-- The call `r.Create` for a Route: the error returned and the store left. -/
def Client.createRoute (f : Faults) (s : Store) (route : Route) :
    Option APIError × Store :=
  let r := clientCreate f.createRoute (fun x : Route => x.key) s.routes route
  (r.1, { s with routes := r.2 })

/-- The call `r.List` for the pods of a namespace that match a selector. -/
def Client.listPods (f : Faults) (s : Store) (nspace : String) (selector : Labels) :
    Except APIError (List Pod) :=
  clientListPods f.listPods s.pods nspace selector

/-- The call `r.Status().Update`: the error returned and the store left. -/
def Client.statusUpdate (f : Faults) (s : Store) (jupyterlab : Jupyterlab) :
    Option APIError × Store :=
  let r := clientStatusUpdate f.statusUpdate s.jupyterlabs jupyterlab
  (r.1, { s with jupyterlabs := r.2 })

/-! ## Reconcile -/

/-- The value `ctrl.Result`; the source never sets `RequeueAfter`. -/
structure Result where
  Requeue : Bool
deriving DecidableEq, Repr

/-- What an invocation of Reconcile ends in: the pair it returns, or a panic. -/
inductive Outcome where
  | returned (result : Result) (err : Option APIError)
  | panicked
deriving DecidableEq, Repr

/-- The outcome Done: `ctrl.Result{}` with a nil error. -/
def Done : Outcome := .returned { Requeue := false } none

/-- The outcome RequeueSoon: `ctrl.Result{Requeue: true}` with a nil error. -/
def RequeueSoon : Outcome := .returned { Requeue := true } none

/-- The outcome Error: `ctrl.Result{}` with the error. -/
def Failed (err : APIError) : Outcome := .returned { Requeue := false } (some err)

/-- A call of the client, with its arguments. -/
inductive Call where
  | getJupyterlab (key : NamespacedName)
  | getDeployment (key : NamespacedName)
  | createDeployment (dep : Deployment)
  | updateDeployment (dep : Deployment)
  | getService (key : NamespacedName)
  | createService (service : Service)
  | getRoute (key : NamespacedName)
  | createRoute (route : Route)
  | listPods (nspace : String) (selector : Labels)
  | statusUpdate (jupyterlab : Jupyterlab)
deriving DecidableEq, Repr

/-- A call that was issued and the error it returned (`none`: it succeeded). -/
structure Event where
  call : Call
  err : Option APIError
deriving DecidableEq, Repr

/-- The mutating calls: Create, Update and Status().Update. -/
def Call.isWrite : Call → Bool
  | .createDeployment _ => true
  | .updateDeployment _ => true
  | .createService _ => true
  | .createRoute _ => true
  | .statusUpdate _ => true
  | _ => false

/-- The calls Create. -/
def Call.isCreate : Call → Bool
  | .createDeployment _ => true
  | .createService _ => true
  | .createRoute _ => true
  | _ => false

/-- The call Update of a Deployment. -/
def Call.isDeploymentUpdate : Call → Bool
  | .updateDeployment _ => true
  | _ => false

/-- The call Status().Update. -/
def Call.isStatusUpdate : Call → Bool
  | .statusUpdate _ => true
  | _ => false

/-- The method `Reconcile` of `JupyterlabReconciler`, line by line: the outcome, the
store after the invocation and the calls issued, in order. -/
def Reconcile (f : Faults) (s : Store) (req : NamespacedName) :
    Outcome × Store × List Event :=
  -- Fetch the Jupyterlab instance
  match Client.getJupyterlab f s req with
  | .error err =>
    if IsNotFound err then (Done, s, [⟨.getJupyterlab req, some err⟩])
    else (Failed err, s, [⟨.getJupyterlab req, some err⟩])
  | .ok jupyterlab =>
    let t1 : List Event := [⟨.getJupyterlab req, none⟩]
    let key : NamespacedName := { Name := jupyterlab.Name, Namespace := jupyterlab.Namespace }
    -- Check if the deployment already exists, if not create a new one
    match Client.getDeployment f s key with
    | .error err =>
      if IsNotFound err then
        let dep := deploymentForJupyterlab jupyterlab
        match Client.createDeployment f s dep with
        | (some err2, s2) =>
          (Failed err2, s2,
            t1 ++ [⟨.getDeployment key, some err⟩, ⟨.createDeployment dep, some err2⟩])
        | (none, s2) =>
          (RequeueSoon, s2,
            t1 ++ [⟨.getDeployment key, some err⟩, ⟨.createDeployment dep, none⟩])
      else (Failed err, s, t1 ++ [⟨.getDeployment key, some err⟩])
    | .ok found =>
      let t2 : List Event := t1 ++ [⟨.getDeployment key, none⟩]
      -- Ensure the deployment size is the same as the spec
      let size := jupyterlab.Spec.Size
      match found.Spec.Replicas with
      | none => (.panicked, s, t2)
      | some replicas =>
        if replicas ≠ size then
          let found2 : Deployment :=
            { found with Spec := { found.Spec with Replicas := some size } }
          match Client.updateDeployment f s found2 with
          | (some err, s2) => (Failed err, s2, t2 ++ [⟨.updateDeployment found2, some err⟩])
          | (none, s2) => (RequeueSoon, s2, t2 ++ [⟨.updateDeployment found2, none⟩])
        else
          -- Check if the service already exists, if not create a new one
          match Client.getService f s key with
          | .error err =>
            if IsNotFound err then
              let service := serviceForJupyterLab jupyterlab
              match Client.createService f s service with
              | (some err2, s2) =>
                (Failed err2, s2,
                  t2 ++ [⟨.getService key, some err⟩, ⟨.createService service, some err2⟩])
              | (none, s2) =>
                (RequeueSoon, s2,
                  t2 ++ [⟨.getService key, some err⟩, ⟨.createService service, none⟩])
            else (Failed err, s, t2 ++ [⟨.getService key, some err⟩])
          | .ok _ =>
            let t3 : List Event := t2 ++ [⟨.getService key, none⟩]
            -- Check if the route already exists, if not create a new one
            match Client.getRoute f s key with
            | .error err =>
              if IsNotFound err then
                let route := routeForJupyterlab jupyterlab
                match Client.createRoute f s route with
                | (some err2, s2) =>
                  (Failed err2, s2,
                    t3 ++ [⟨.getRoute key, some err⟩, ⟨.createRoute route, some err2⟩])
                | (none, s2) =>
                  (RequeueSoon, s2,
                    t3 ++ [⟨.getRoute key, some err⟩, ⟨.createRoute route, none⟩])
              else (Failed err, s, t3 ++ [⟨.getRoute key, some err⟩])
            | .ok _ =>
              let t4 : List Event := t3 ++ [⟨.getRoute key, none⟩]
              -- List the pods for this jupyterlab's deployment
              let selector := labelsForJupyterlab jupyterlab.Name
              match Client.listPods f s jupyterlab.Namespace selector with
              | .error err =>
                (Failed err, s, t4 ++ [⟨.listPods jupyterlab.Namespace selector, some err⟩])
              | .ok items =>
                let t5 : List Event :=
                  t4 ++ [⟨.listPods jupyterlab.Namespace selector, none⟩]
                let podNames := getPodNames items
                -- Update status.Nodes if needed
                if podNames ≠ jupyterlab.Status.Nodes then
                  let jupyterlab2 : Jupyterlab :=
                    { jupyterlab with Status := { Nodes := podNames } }
                  match Client.statusUpdate f s jupyterlab2 with
                  | (some err, s2) =>
                    (Failed err, s2, t5 ++ [⟨.statusUpdate jupyterlab2, some err⟩])
                  | (none, s2) => (Done, s2, t5 ++ [⟨.statusUpdate jupyterlab2, none⟩])
                else (Done, s, t5)

/-- Repeated invocations for one key, nothing else mutating the store: the outcome
and the calls of each invocation, and the store after the last one. -/
def reconcileTimes (f : Faults) (req : NamespacedName) :
    Nat → Store → List (Outcome × List Event) × Store
  | 0, s => ([], s)
  | n + 1, s =>
    let r := Reconcile f s req
    let rest := reconcileTimes f req n r.2.1
    ((r.1, r.2.2) :: rest.1, rest.2)


/-- What one invocation may do to the store, as a property of its result: at most one
mutating call was issued, and a Create or a Deployment Update that succeeded is the last
call and is followed by RequeueSoon. -/
def OneWritePerPass (r : Outcome × Store × List Event) : Prop :=
  (r.2.2.filter (fun e => e.call.isWrite)).length ≤ 1 ∧
  ∀ e ∈ r.2.2, (e.call.isCreate = true ∨ e.call.isDeploymentUpdate = true) → e.err = none →
    r.1 = RequeueSoon ∧ r.2.2.getLast? = some e

/-! ## Concrete states -/

/-- A Jupyterlab named `lab` in the namespace `ns`, of size 3, with no status yet. -/
def lab : Jupyterlab :=
  { Name := "lab", Namespace := "ns", Labels := [], OwnerReferences := [],
    Spec := { Size := 3 }, Status := { Nodes := none } }

/-- The key of `lab`. -/
def labKey : NamespacedName := { Namespace := "ns", Name := "lab" }

/-- A pod of the given name in `ns` that carries the pod-template labels of `lab`. -/
def labPod (name : String) : Pod :=
  { Name := name, Namespace := "ns", Labels := labelsForJupyterlab "lab",
    OwnerReferences := [], Spec := { Containers := [] } }

/-- The store that holds `lab` and nothing else. -/
def freshStore : Store :=
  { jupyterlabs := [lab], deployments := [], services := [], routes := [], pods := [] }

/-- The store that holds no Jupyterlab, but dependents left under the name of `lab`. -/
def orphanStore : Store :=
  { jupyterlabs := [], deployments := [deploymentForJupyterlab lab],
    services := [serviceForJupyterLab lab], routes := [routeForJupyterlab lab],
    pods := [labPod "pod-a"] }

/-- The store in which `lab` has its Deployment and its Service, but no Route. -/
def noRouteStore : Store :=
  { jupyterlabs := [lab], deployments := [deploymentForJupyterlab lab],
    services := [serviceForJupyterLab lab], routes := [], pods := [] }

/-- The store in which `lab` has its Deployment, and neither Service nor Route. -/
def noServiceStore : Store :=
  { jupyterlabs := [lab], deployments := [deploymentForJupyterlab lab],
    services := [], routes := [], pods := [] }

/-- The faults under which only the Create of a Deployment fails, with AlreadyExists. -/
def deploymentRace : Faults := { noFaults with createDeployment := some .AlreadyExists }

/-- The faults under which only the Create of a Service fails, with AlreadyExists. -/
def serviceRace : Faults := { noFaults with createService := some .AlreadyExists }

/-- The faults under which only the Create of a Route fails, with AlreadyExists. -/
def routeRace : Faults := { noFaults with createRoute := some .AlreadyExists }

/-- The Deployment of `lab` scaled to one replica. -/
def driftedDeployment : Deployment :=
  { deploymentForJupyterlab lab with
    Spec := { (deploymentForJupyterlab lab).Spec with Replicas := some 1 } }

/-- The store in which the Deployment of `lab` has one replica, the spec asking for 3. -/
def driftedStore : Store :=
  { jupyterlabs := [lab], deployments := [driftedDeployment],
    services := [serviceForJupyterLab lab], routes := [routeForJupyterlab lab], pods := [] }

/-- The pods `pod-a` and `pod-b` of `lab`, in the order in which the store lists them. -/
def twoPods : List Pod := [labPod "pod-a", labPod "pod-b"]

/-- The store in which `lab` is converged and `Status.Nodes` has the given value. -/
def convergedStore (nodes : Option (List String)) (pods : List Pod) : Store :=
  { jupyterlabs := [{ lab with Status := { Nodes := nodes } }],
    deployments := [deploymentForJupyterlab lab],
    services := [serviceForJupyterLab lab], routes := [routeForJupyterlab lab], pods := pods }

/-- A second Jupyterlab, named `other`, in the namespace of `lab`. -/
def otherLab : Jupyterlab :=
  { Name := "other", Namespace := "ns", Labels := [], OwnerReferences := [],
    Spec := { Size := 1 }, Status := { Nodes := none } }

/-! ## Lemmas on the store -/

theorem lookupKey_some_key {α : Type} (key : α → NamespacedName) (xs : List α)
    (k : NamespacedName) (x : α) (h : lookupKey key xs k = some x) : key x = k := by
  unfold lookupKey at h
  have := List.find?_some h
  simpa using this

theorem clientGet_ok_key {α : Type} (fault : Option String) (key : α → NamespacedName)
    (xs : List α) (k : NamespacedName) (x : α) (h : clientGet fault key xs k = .ok x) :
    key x = k := by
  unfold clientGet at h
  split at h
  · cases h
  · split at h
    · rename_i y hy
      cases h
      exact lookupKey_some_key key xs k _ hy
    · cases h

theorem getJupyterlab_ok_key (f : Faults) (s : Store) (req : NamespacedName) (m : Jupyterlab)
    (h : Client.getJupyterlab f s req = .ok m) :
    ({ Name := m.Name, Namespace := m.Namespace } : NamespacedName) = req :=
  clientGet_ok_key f.getJupyterlab (fun x : Jupyterlab => x.key) s.jupyterlabs req m h

theorem clientGet_ok_lookup {α : Type} (fault : Option String) (key : α → NamespacedName)
    (xs : List α) (k : NamespacedName) (x : α) (h : clientGet fault key xs k = .ok x) :
    lookupKey key xs k = some x := by
  unfold clientGet at h
  split at h
  · cases h
  · split at h
    · rename_i y hy
      cases h
      exact hy
    · cases h

theorem foldl_podNames (pods : List Pod) (acc : List String) :
    pods.foldl (fun podNames pod => some (podNames.getD [] ++ [pod.Name])) (some acc)
      = some (acc ++ pods.map (fun p => p.Name)) := by
  induction pods generalizing acc with
  | nil => simp
  | cons p ps ih => simp [List.foldl_cons, ih]

theorem getPodNames_eq (pods : List Pod) :
    getPodNames pods = if pods = [] then none else some (pods.map (fun p => p.Name)) := by
  cases pods with
  | nil => rfl
  | cons p ps => simp [getPodNames, List.foldl_cons, foldl_podNames]

theorem lookupKey_statusMap (xs : List Jupyterlab) (k : NamespacedName) (m : Jupyterlab)
    (st : JupyterlabStatus) (h : lookupKey (fun x : Jupyterlab => x.key) xs k = some m) :
    lookupKey (fun x : Jupyterlab => x.key)
      (xs.map (fun y => if y.key = k then { y with Status := st } else y)) k
      = some { m with Status := st } := by
  induction xs with
  | nil => simp [lookupKey] at h
  | cons x rest ih =>
    by_cases hx : x.key = k
    · simp only [lookupKey, List.find?_cons, hx, decide_True] at h
      cases h
      simp [lookupKey, List.find?_cons, hx, ObjectMeta.key] at *
      simp [hx]
    · have h2 : lookupKey (fun x : Jupyterlab => x.key) rest k = some m := by
        simpa [lookupKey, List.find?_cons, hx] using h
      have := ih h2
      simpa [lookupKey, List.find?_cons, hx] using this

theorem lookupKey_append_new {α : Type} (key : α → NamespacedName) (xs : List α)
    (k : NamespacedName) (x : α) (h : lookupKey key xs k = none) (hx : key x = k) :
    lookupKey key (xs ++ [x]) k = some x := by
  unfold lookupKey at h ⊢
  rw [List.find?_append, h]
  simp [hx]

theorem SetControllerReference_key (owner : Jupyterlab) (controlled : ObjectMeta) :
    (SetControllerReference owner controlled).key = controlled.key := by
  unfold SetControllerReference
  split <;> rfl

theorem deploymentForJupyterlab_key (m : Jupyterlab) :
    (deploymentForJupyterlab m).key = m.key := by
  simp [deploymentForJupyterlab, SetControllerReference_key]
  rfl

theorem serviceForJupyterLab_key (m : Jupyterlab) :
    (serviceForJupyterLab m).key = m.key := by
  simp [serviceForJupyterLab, SetControllerReference_key]
  rfl

theorem routeForJupyterlab_key (m : Jupyterlab) :
    (routeForJupyterlab m).key = m.key := by
  simp [routeForJupyterlab, SetControllerReference_key]
  rfl

/-! ## Deletion tolerance -/

/-- Claim C6. When the get of the Jupyterlab object of the request key returns NotFound,
Reconcile returns Done, leaves the store as it is and has issued that single get and no
other call, whatever else the store holds. -/
theorem deletion_tolerance (f : Faults) (s : Store) (req : NamespacedName)
    (h : Client.getJupyterlab f s req = .error .NotFound) :
    Reconcile f s req = (Done, s, [⟨.getJupyterlab req, some .NotFound⟩]) := by
  simp [Reconcile, h, IsNotFound]

/-- Claim C6 at the store that holds dependents of `lab` but no Jupyterlab. -/
theorem deletion_tolerance_witness :
    Client.getJupyterlab noFaults orphanStore labKey = .error .NotFound ∧
    Reconcile noFaults orphanStore labKey =
      (Done, orphanStore, [⟨.getJupyterlab labKey, some .NotFound⟩]) :=
  ⟨by decide, deletion_tolerance noFaults orphanStore labKey (by decide)⟩


/-! ## AlreadyExists on create -/

/-- Claim C4, refuted as stated. In each of the three create branches, with the get
reporting NotFound and the Create failing with AlreadyExists, Reconcile returns the
error with `Requeue` false, which is not RequeueSoon. -/
theorem alreadyExists_is_not_requeueSoon :
    (Client.getDeployment deploymentRace freshStore labKey = .error .NotFound ∧
      (Client.createDeployment deploymentRace freshStore (deploymentForJupyterlab lab)).1
        = some .AlreadyExists ∧
      (Reconcile deploymentRace freshStore labKey).1 = .returned { Requeue := false } (some .AlreadyExists) ∧
      (Reconcile deploymentRace freshStore labKey).1 ≠ RequeueSoon) ∧
    (Client.getService serviceRace noServiceStore labKey = .error .NotFound ∧
      (Client.createService serviceRace noServiceStore (serviceForJupyterLab lab)).1
        = some .AlreadyExists ∧
      (Reconcile serviceRace noServiceStore labKey).1 ≠ RequeueSoon) ∧
    (Client.getRoute routeRace noRouteStore labKey = .error .NotFound ∧
      (Client.createRoute routeRace noRouteStore (routeForJupyterlab lab)).1
        = some .AlreadyExists ∧
      (Reconcile routeRace noRouteStore labKey).1 ≠ RequeueSoon) := by
  decide

/-- Claim C4, amended. In each of the three create branches of Reconcile (Deployment,
Service, Route), when the preceding get reported NotFound and the Create then fails with
AlreadyExists, Reconcile returns the Error outcome: `ctrl.Result{}` together with the
AlreadyExists error. -/
theorem create_alreadyExists_is_error (f : Faults) (s : Store) (req : NamespacedName)
    (m : Jupyterlab) (hm : Client.getJupyterlab f s req = .ok m) :
    (Client.getDeployment f s req = .error .NotFound →
      (Client.createDeployment f s (deploymentForJupyterlab m)).1 = some .AlreadyExists →
      (Reconcile f s req).1 = Failed .AlreadyExists) ∧
    (∀ found : Deployment, Client.getDeployment f s req = .ok found →
      found.Spec.Replicas = some m.Spec.Size →
      Client.getService f s req = .error .NotFound →
      (Client.createService f s (serviceForJupyterLab m)).1 = some .AlreadyExists →
      (Reconcile f s req).1 = Failed .AlreadyExists) ∧
    (∀ (found : Deployment) (foundService : Service),
      Client.getDeployment f s req = .ok found →
      found.Spec.Replicas = some m.Spec.Size →
      Client.getService f s req = .ok foundService →
      Client.getRoute f s req = .error .NotFound →
      (Client.createRoute f s (routeForJupyterlab m)).1 = some .AlreadyExists →
      (Reconcile f s req).1 = Failed .AlreadyExists) := by
  have hk := getJupyterlab_ok_key f s req m hm
  refine ⟨?_, ?_, ?_⟩
  · intro hd hc
    generalize hx : Client.createDeployment f s (deploymentForJupyterlab m) = x at hc
    obtain ⟨e, s2⟩ := x
    simp only at hc
    subst hc
    simp [Reconcile, hm, hk, hd, hx, IsNotFound]
  · intro found hd hr hs hc
    generalize hx : Client.createService f s (serviceForJupyterLab m) = x at hc
    obtain ⟨e, s2⟩ := x
    simp only at hc
    subst hc
    simp [Reconcile, hm, hk, hd, hr, hs, hx, IsNotFound]
  · intro found foundService hd hr hs hro hc
    generalize hx : Client.createRoute f s (routeForJupyterlab m) = x at hc
    obtain ⟨e, s2⟩ := x
    simp only at hc
    subst hc
    simp [Reconcile, hm, hk, hd, hr, hs, hro, hx, IsNotFound]

/-- Claim C4, amended, at `lab`: the three create branches, each losing the race. -/
theorem create_alreadyExists_is_error_witness :
    (Reconcile deploymentRace freshStore labKey).1 = Failed .AlreadyExists ∧
    (Reconcile serviceRace noServiceStore labKey).1 = Failed .AlreadyExists ∧
    (Reconcile routeRace noRouteStore labKey).1 = Failed .AlreadyExists :=
  ⟨(create_alreadyExists_is_error deploymentRace freshStore labKey lab (by decide)).1
      (by decide) (by decide),
   (create_alreadyExists_is_error serviceRace noServiceStore labKey lab (by decide)).2.1
      (deploymentForJupyterlab lab) (by decide) (by decide) (by decide) (by decide),
   (create_alreadyExists_is_error routeRace noRouteStore labKey lab (by decide)).2.2
      (deploymentForJupyterlab lab) (serviceForJupyterLab lab)
      (by decide) (by decide) (by decide) (by decide) (by decide)⟩

/-! ## Drift correction -/

/-- Claim C5. When the Deployment fetched for a Jupyterlab with `Spec.Size = s` has a
replica count `r` that is present and differs from `s`, and the Update succeeds, then
Reconcile returns RequeueSoon; its calls are the two gets and one write, the Update of
the fetched Deployment with the replica count set to `s` and every other field as
fetched; the stored Deployment of that key is replaced by it, and the Jupyterlab objects
(with their Status), the Services, the Routes and the pods of the store are untouched. -/
theorem drift_correction (f : Faults) (s : Store) (req : NamespacedName) (m : Jupyterlab)
    (found : Deployment) (r : Int)
    (hm : Client.getJupyterlab f s req = .ok m)
    (hd : Client.getDeployment f s req = .ok found)
    (hr : found.Spec.Replicas = some r) (hne : r ≠ m.Spec.Size)
    (hu : (Client.updateDeployment f s
      { found with Spec := { found.Spec with Replicas := some m.Spec.Size } }).1 = none) :
    ∃ found2 : Deployment,
      found2.Spec.Replicas = some m.Spec.Size ∧
      found2.toObjectMeta = found.toObjectMeta ∧
      found2.Spec.Selector = found.Spec.Selector ∧
      found2.Spec.Template = found.Spec.Template ∧
      (Reconcile f s req).1 = RequeueSoon ∧
      (Reconcile f s req).2.2 =
        [⟨.getJupyterlab req, none⟩, ⟨.getDeployment req, none⟩,
         ⟨.updateDeployment found2, none⟩] ∧
      (Reconcile f s req).2.2.filter (fun e => e.call.isWrite) =
        [⟨.updateDeployment found2, none⟩] ∧
      (Reconcile f s req).2.1 =
        { s with deployments :=
            s.deployments.map (fun y => if y.key = found.key then found2 else y) } := by
  have hk := getJupyterlab_ok_key f s req m hm
  refine ⟨{ found with Spec := { found.Spec with Replicas := some m.Spec.Size } },
    rfl, rfl, rfl, rfl, ?_⟩
  generalize hx : Client.updateDeployment f s
      { found with Spec := { found.Spec with Replicas := some m.Spec.Size } } = x at hu
  obtain ⟨e, s2⟩ := x
  simp only at hu
  subst hu
  have hs2 : s2 = { s with deployments := s.deployments.map (fun y => if y.key = found.key
      then { found with Spec := { found.Spec with Replicas := some m.Spec.Size } } else y) } := by
    simp only [Client.updateDeployment, clientUpdate] at hx
    split at hx
    · simp at hx
    · split at hx
      · simp only [Prod.mk.injEq, true_and] at hx
        rw [← hx]
      · simp at hx
  simp [Reconcile, hm, hk, hd, hr, hne, hx, hs2, Call.isWrite]

/-- Claim C5 at `lab`, of size 3, with a Deployment of one replica. -/
theorem drift_correction_witness :
    ∃ found2 : Deployment,
      found2.Spec.Replicas = some lab.Spec.Size ∧
      found2.toObjectMeta = driftedDeployment.toObjectMeta ∧
      found2.Spec.Selector = driftedDeployment.Spec.Selector ∧
      found2.Spec.Template = driftedDeployment.Spec.Template ∧
      (Reconcile noFaults driftedStore labKey).1 = RequeueSoon ∧
      (Reconcile noFaults driftedStore labKey).2.2 =
        [⟨.getJupyterlab labKey, none⟩, ⟨.getDeployment labKey, none⟩,
         ⟨.updateDeployment found2, none⟩] ∧
      (Reconcile noFaults driftedStore labKey).2.2.filter (fun e => e.call.isWrite) =
        [⟨.updateDeployment found2, none⟩] ∧
      (Reconcile noFaults driftedStore labKey).2.1 =
        { driftedStore with
          deployments := driftedStore.deployments.map
            (fun y => if y.key = driftedDeployment.key then found2 else y) } :=
  drift_correction noFaults driftedStore labKey lab driftedDeployment 1
    (by decide) (by decide) (by decide) (by decide) (by decide)


/-! ## One write per pass -/

theorem oneWritePerPass_Reconcile (f : Faults) (s : Store) (req : NamespacedName) :
    OneWritePerPass (Reconcile f s req) := by
  unfold Reconcile
  repeat' ((try dsimp only); split)
  all_goals simp [OneWritePerPass, Call.isWrite, Call.isCreate, Call.isDeploymentUpdate]

/-- Claim C7. For every store, every pattern of failing calls and every key, one
invocation of Reconcile issues at most one call among Create, Update and
Status().Update, failed attempts counted; and every Create or Deployment Update that it
issues and that succeeds is its last call, after which it returns RequeueSoon. -/
theorem at_most_one_write (f : Faults) (s : Store) (req : NamespacedName) :
    ((Reconcile f s req).2.2.filter (fun e => e.call.isWrite)).length ≤ 1 ∧
    ∀ e ∈ (Reconcile f s req).2.2,
      (e.call.isCreate = true ∨ e.call.isDeploymentUpdate = true) → e.err = none →
        (Reconcile f s req).1 = RequeueSoon ∧ (Reconcile f s req).2.2.getLast? = some e :=
  oneWritePerPass_Reconcile f s req


/-! ## Status refresh -/

/-- Claim C3, refuted as stated. With the pods `pod-a`, `pod-b` listed and `Status.Nodes`
the permutation `pod-b`, `pod-a` of their names, Reconcile reaches the status step and
issues a Status().Update; and with no pod listed and `Status.Nodes` the empty non-nil
slice it issues one as well. -/
theorem status_refresh_is_not_set_equality :
    (Client.listPods noFaults (convergedStore (some ["pod-b", "pod-a"]) twoPods) "ns"
        (labelsForJupyterlab "lab") = .ok twoPods ∧
      List.Perm ["pod-b", "pod-a"] (twoPods.map (fun p => p.Name)) ∧
      (Reconcile noFaults (convergedStore (some ["pod-b", "pod-a"]) twoPods) labKey).2.2.getLast?
        = some ⟨.statusUpdate { lab with Status := { Nodes := some ["pod-a", "pod-b"] } }, none⟩) ∧
    (Client.listPods noFaults (convergedStore (some []) []) "ns"
        (labelsForJupyterlab "lab") = .ok [] ∧
      (Reconcile noFaults (convergedStore (some []) []) labKey).2.2.getLast?
        = some ⟨.statusUpdate { lab with Status := { Nodes := none } }, none⟩) := by
  refine ⟨⟨by decide, List.Perm.swap _ _ _, by decide⟩, by decide, by decide⟩

/-- Claim C3, amended. When Reconcile reaches the status step (the object, a Deployment
in sync, a Service and a Route are found and the pod list succeeds), it issues a
Status().Update if and only if the slice that getPodNames builds from the listed pods
differs from `Status.Nodes` under `reflect.DeepEqual`; that is, no status write is
issued exactly when `Status.Nodes` is the nil slice and no pod is listed, or is the
non-nil slice of the listed pod names in list order. -/
theorem status_refresh_compares_slices (f : Faults) (s : Store) (req : NamespacedName)
    (m : Jupyterlab) (found : Deployment) (foundService : Service) (foundRoute : Route)
    (items : List Pod)
    (hm : Client.getJupyterlab f s req = .ok m)
    (hd : Client.getDeployment f s req = .ok found)
    (hr : found.Spec.Replicas = some m.Spec.Size)
    (hs : Client.getService f s req = .ok foundService)
    (hro : Client.getRoute f s req = .ok foundRoute)
    (hl : Client.listPods f s m.Namespace (labelsForJupyterlab m.Name) = .ok items) :
    ((∃ e ∈ (Reconcile f s req).2.2, e.call.isStatusUpdate = true) ↔
      getPodNames items ≠ m.Status.Nodes) ∧
    ((∀ e ∈ (Reconcile f s req).2.2, e.call.isStatusUpdate = false) ↔
      m.Status.Nodes = if items = [] then none else some (items.map (fun p => p.Name))) := by
  have hk := getJupyterlab_ok_key f s req m hm
  have hpn := getPodNames_eq items
  by_cases hne : getPodNames items = m.Status.Nodes
  · have hne2 : m.Status.Nodes = if items = [] then none else some (items.map (fun p => p.Name)) := by
      rw [← hne, hpn]
    simp [Reconcile, hm, hk, hd, hr, hs, hro, hl, hne, Call.isStatusUpdate, ← hne2]
  · have hne2 : ¬ m.Status.Nodes = if items = [] then none else some (items.map (fun p => p.Name)) := by
      rw [← hpn]
      exact fun h => hne h.symm
    generalize hx : Client.statusUpdate f s { m with Status := { Nodes := getPodNames items } } = x
    obtain ⟨e, s2⟩ := x
    cases e <;> simp [Reconcile, hm, hk, hd, hr, hs, hro, hl, hne, hx, Call.isStatusUpdate, hne2]

/-- Claim C3, amended, at `lab` with `Status.Nodes` the names of its two pods in list
order: the status step is reached and no status write is issued. -/
theorem status_refresh_compares_slices_witness :
    ((∃ e ∈ (Reconcile noFaults (convergedStore (some ["pod-a", "pod-b"]) twoPods) labKey).2.2,
        e.call.isStatusUpdate = true) ↔
      getPodNames twoPods ≠ some ["pod-a", "pod-b"]) ∧
    ((∀ e ∈ (Reconcile noFaults (convergedStore (some ["pod-a", "pod-b"]) twoPods) labKey).2.2,
        e.call.isStatusUpdate = false) ↔
      some ["pod-a", "pod-b"]
        = if twoPods = [] then none else some (twoPods.map (fun p => p.Name))) :=
  status_refresh_compares_slices noFaults (convergedStore (some ["pod-a", "pod-b"]) twoPods)
    labKey { lab with Status := { Nodes := some ["pod-a", "pod-b"] } }
    (deploymentForJupyterlab lab) (serviceForJupyterLab lab) (routeForJupyterlab lab) twoPods
    (by decide) (by decide) (by decide) (by decide) (by decide) (by decide)


/-! ## Done implies converged -/

/-- Claim C10. When the store holds the Jupyterlab object of the key and the invocation
returns Done, whatever calls are made to fail, then in that invocation a Deployment of
the object's name was found with replica count equal to `Spec.Size`, a Service and a
Route of that name were found and the pod list succeeded (the first five calls are these reads, all without error), no Create and
no Deployment Update was issued, and the `Status.Nodes` of the stored object after the
invocation is the slice of the names of the listed pods, in list order. -/
theorem done_implies_converged (f : Faults) (s : Store) (req : NamespacedName)
    (m : Jupyterlab)
    (hex : lookupKey (fun x : Jupyterlab => x.key) s.jupyterlabs req = some m)
    (hdone : (Reconcile f s req).1 = Done) :
    ∃ (found : Deployment) (foundService : Service) (foundRoute : Route) (items : List Pod),
      Client.getDeployment f s { Name := m.Name, Namespace := m.Namespace } = .ok found ∧
      found.Name = m.Name ∧
      found.Spec.Replicas = some m.Spec.Size ∧
      Client.getService f s { Name := m.Name, Namespace := m.Namespace } = .ok foundService ∧
      foundService.Name = m.Name ∧
      Client.getRoute f s { Name := m.Name, Namespace := m.Namespace } = .ok foundRoute ∧
      foundRoute.Name = m.Name ∧
      Client.listPods f s m.Namespace (labelsForJupyterlab m.Name) = .ok items ∧
      (Reconcile f s req).2.2.take 5 =
        [⟨.getJupyterlab req, none⟩, ⟨.getDeployment req, none⟩, ⟨.getService req, none⟩,
         ⟨.getRoute req, none⟩, ⟨.listPods m.Namespace (labelsForJupyterlab m.Name), none⟩] ∧
      (∀ e ∈ (Reconcile f s req).2.2,
        e.call.isCreate = false ∧ e.call.isDeploymentUpdate = false) ∧
      ∃ m2 : Jupyterlab,
        lookupKey (fun x : Jupyterlab => x.key) (Reconcile f s req).2.1.jupyterlabs req = some m2 ∧
        m2.Status.Nodes = getPodNames items ∧
        m2.Status.Nodes.getD [] = items.map (fun p => p.Name) := by
  have hm : Client.getJupyterlab f s req = .ok m := by
    cases hf : f.getJupyterlab with
    | some reason =>
      exfalso
      simp [Reconcile, Client.getJupyterlab, clientGet, hf, IsNotFound, Done, Failed] at hdone
    | none => simp [Client.getJupyterlab, clientGet, hf, hex]
  have hk := getJupyterlab_ok_key f s req m hm
  have hlm := hex
  have hnames : ∀ items : List Pod,
      (getPodNames items).getD [] = items.map (fun p => p.Name) := by
    intro items
    rw [getPodNames_eq]
    cases items <;> simp
  rw [hk]
  cases hd : Client.getDeployment f s req with
  | error e =>
    exfalso
    simp only [Reconcile, hm, hk, hd] at hdone
    repeat' (split at hdone)
    all_goals simp [Done, Failed, RequeueSoon] at hdone
  | ok found =>
    have hfk := clientGet_ok_key _ _ _ _ _ hd
    cases hrep : found.Spec.Replicas with
    | none =>
      exfalso
      simp [Reconcile, hm, hk, hd, hrep, Done] at hdone
    | some r =>
      by_cases hsz : r = m.Spec.Size
      swap
      · exfalso
        simp only [Reconcile, hm, hk, hd, hrep] at hdone
        repeat' (split at hdone)
        all_goals first
          | contradiction
          | simp [Done, Failed, RequeueSoon] at hdone
      subst hsz
      cases hs : Client.getService f s req with
      | error e =>
        exfalso
        simp only [Reconcile, hm, hk, hd, hrep, hs] at hdone
        repeat' (split at hdone)
        all_goals simp [Done, Failed, RequeueSoon] at hdone
      | ok foundService =>
        have hsk := clientGet_ok_key _ _ _ _ _ hs
        cases hro : Client.getRoute f s req with
        | error e =>
          exfalso
          simp only [Reconcile, hm, hk, hd, hrep, hs, hro] at hdone
          repeat' (split at hdone)
          all_goals simp [Done, Failed, RequeueSoon] at hdone
        | ok foundRoute =>
          have hrk := clientGet_ok_key _ _ _ _ _ hro
          cases hl : Client.listPods f s m.Namespace (labelsForJupyterlab m.Name) with
          | error e =>
            exfalso
            simp [Reconcile, hm, hk, hd, hrep, hs, hro, hl, Done, Failed] at hdone
          | ok items =>
            refine ⟨found, foundService, foundRoute, items, rfl, ?_, hrep, rfl, ?_, rfl, ?_, rfl, ?_⟩
            · rw [← hk] at hfk
              simpa [ObjectMeta.key] using (congrArg NamespacedName.Name hfk)
            · rw [← hk] at hsk
              simpa [ObjectMeta.key] using (congrArg NamespacedName.Name hsk)
            · rw [← hk] at hrk
              simpa [ObjectMeta.key] using (congrArg NamespacedName.Name hrk)
            by_cases hne : getPodNames items = m.Status.Nodes
            · simp [Reconcile, hm, hk, hd, hrep, hs, hro, hl, hne, Call.isCreate,
                Call.isDeploymentUpdate]
              exact ⟨m, hlm, rfl, by rw [← hne]; exact hnames items⟩
            · generalize hx : Client.statusUpdate f s
                  { m with Status := { Nodes := getPodNames items } } = x
              obtain ⟨e, s2⟩ := x
              cases e with
              | some err =>
                exfalso
                simp [Reconcile, hm, hk, hd, hrep, hs, hro, hl, hne, hx, Done, Failed] at hdone
              | none =>
                have hs2 : s2.jupyterlabs = s.jupyterlabs.map (fun y =>
                    if y.key = req then { y with Status := { Nodes := getPodNames items } }
                    else y) := by
                  simp only [Client.statusUpdate, clientStatusUpdate] at hx
                  split at hx
                  · simp at hx
                  · split at hx
                    · simp only [Prod.mk.injEq, true_and] at hx
                      rw [← hx]
                      simp [ObjectMeta.key, ← hk]
                    · simp at hx
                simp [Reconcile, hm, hk, hd, hrep, hs, hro, hl, hne, hx, Call.isCreate,
                  Call.isDeploymentUpdate]
                refine ⟨{ m with Status := { Nodes := getPodNames items } }, ?_, rfl, hnames items⟩
                rw [hs2]
                exact lookupKey_statusMap s.jupyterlabs req m _ hlm


/-! ## The passes of a convergence -/

theorem reconcile_creates_deployment (s : Store) (req : NamespacedName) (m : Jupyterlab)
    (hm : lookupKey (fun x : Jupyterlab => x.key) s.jupyterlabs req = some m)
    (hd : lookupKey (fun x : Deployment => x.key) s.deployments req = none) :
    Reconcile noFaults s req =
      (RequeueSoon,
        { s with deployments := s.deployments ++ [deploymentForJupyterlab m] },
        [⟨.getJupyterlab req, none⟩, ⟨.getDeployment req, some .NotFound⟩,
         ⟨.createDeployment (deploymentForJupyterlab m), none⟩]) := by
  have hk : m.key = req := lookupKey_some_key (fun x : Jupyterlab => x.key) _ _ _ hm
  have hk2 : ({ Name := m.Name, Namespace := m.Namespace } : NamespacedName) = req := hk
  simp [Reconcile, Client.getJupyterlab, Client.getDeployment, Client.createDeployment,
    clientGet, clientCreate, noFaults, hm, hk, hk2, hd, IsNotFound, deploymentForJupyterlab_key]

theorem reconcile_creates_service (s : Store) (req : NamespacedName) (m : Jupyterlab)
    (found : Deployment)
    (hm : lookupKey (fun x : Jupyterlab => x.key) s.jupyterlabs req = some m)
    (hd : lookupKey (fun x : Deployment => x.key) s.deployments req = some found)
    (hrep : found.Spec.Replicas = some m.Spec.Size)
    (hs : lookupKey (fun x : Service => x.key) s.services req = none) :
    Reconcile noFaults s req =
      (RequeueSoon,
        { s with services := s.services ++ [serviceForJupyterLab m] },
        [⟨.getJupyterlab req, none⟩, ⟨.getDeployment req, none⟩,
         ⟨.getService req, some .NotFound⟩,
         ⟨.createService (serviceForJupyterLab m), none⟩]) := by
  have hk : m.key = req := lookupKey_some_key (fun x : Jupyterlab => x.key) _ _ _ hm
  have hk2 : ({ Name := m.Name, Namespace := m.Namespace } : NamespacedName) = req := hk
  simp [Reconcile, Client.getJupyterlab, Client.getDeployment, Client.getService,
    Client.createService, clientGet, clientCreate, noFaults, hm, hk, hk2, hd, hrep, hs,
    IsNotFound, serviceForJupyterLab_key]

theorem reconcile_creates_route (s : Store) (req : NamespacedName) (m : Jupyterlab)
    (found : Deployment) (foundService : Service)
    (hm : lookupKey (fun x : Jupyterlab => x.key) s.jupyterlabs req = some m)
    (hd : lookupKey (fun x : Deployment => x.key) s.deployments req = some found)
    (hrep : found.Spec.Replicas = some m.Spec.Size)
    (hs : lookupKey (fun x : Service => x.key) s.services req = some foundService)
    (hr : lookupKey (fun x : Route => x.key) s.routes req = none) :
    Reconcile noFaults s req =
      (RequeueSoon,
        { s with routes := s.routes ++ [routeForJupyterlab m] },
        [⟨.getJupyterlab req, none⟩, ⟨.getDeployment req, none⟩, ⟨.getService req, none⟩,
         ⟨.getRoute req, some .NotFound⟩,
         ⟨.createRoute (routeForJupyterlab m), none⟩]) := by
  have hk : m.key = req := lookupKey_some_key (fun x : Jupyterlab => x.key) _ _ _ hm
  have hk2 : ({ Name := m.Name, Namespace := m.Namespace } : NamespacedName) = req := hk
  simp [Reconcile, Client.getJupyterlab, Client.getDeployment, Client.getService,
    Client.getRoute, Client.createRoute, clientGet, clientCreate, noFaults, hm, hk, hk2, hd,
    hrep, hs, hr, IsNotFound, routeForJupyterlab_key]

theorem reconcile_steady (s : Store) (req : NamespacedName) (m : Jupyterlab)
    (found : Deployment) (foundService : Service) (foundRoute : Route)
    (hm : lookupKey (fun x : Jupyterlab => x.key) s.jupyterlabs req = some m)
    (hd : lookupKey (fun x : Deployment => x.key) s.deployments req = some found)
    (hrep : found.Spec.Replicas = some m.Spec.Size)
    (hs : lookupKey (fun x : Service => x.key) s.services req = some foundService)
    (hr : lookupKey (fun x : Route => x.key) s.routes req = some foundRoute)
    (hst : m.Status.Nodes
      = getPodNames (selectPods s.pods m.Namespace (labelsForJupyterlab m.Name))) :
    Reconcile noFaults s req =
      (Done, s,
        [⟨.getJupyterlab req, none⟩, ⟨.getDeployment req, none⟩, ⟨.getService req, none⟩,
         ⟨.getRoute req, none⟩,
         ⟨.listPods m.Namespace (labelsForJupyterlab m.Name), none⟩]) := by
  have hk : m.key = req := lookupKey_some_key (fun x : Jupyterlab => x.key) _ _ _ hm
  have hk2 : ({ Name := m.Name, Namespace := m.Namespace } : NamespacedName) = req := hk
  simp [Reconcile, Client.getJupyterlab, Client.getDeployment, Client.getService,
    Client.getRoute, Client.listPods, clientListPods, clientGet, noFaults, hm, hk, hk2, hd,
    hrep, hs, hr, ← hst]


theorem listPods_selector (f : Faults) (s : Store) (req : NamespacedName) (m : Jupyterlab)
    (hm : Client.getJupyterlab f s req = .ok m) :
    ∀ e ∈ (Reconcile f s req).2.2, ∀ (ns : String) (sel : Labels),
      e.call = .listPods ns sel → ns = m.Namespace ∧ sel = labelsForJupyterlab m.Name := by
  simp only [Reconcile, hm]
  repeat' ((try dsimp only); split)
  all_goals simp

/-! ## Convergence -/

/-- Claim C1. For a Jupyterlab object `m` stored under the key, with no Deployment,
Service or Route under that key, and a store whose calls all answer from its state, the
first three invocations of Reconcile each return RequeueSoon and create, in this order,
the Deployment, the Service and the Route, one per invocation. After the three the store
is the initial one extended by exactly these objects, which are found under the key and
are deploymentForJupyterlab m, serviceForJupyterLab m and the route Reconcile builds for
`m`: the value of newRoute at `m.Name`, `m.Namespace`, `m.Name ++ "-server"`, 8888 with
the controller reference set. After two invocations there is no Route yet. -/
theorem convergence (s : Store) (req : NamespacedName) (m : Jupyterlab)
    (hm : lookupKey (fun x : Jupyterlab => x.key) s.jupyterlabs req = some m)
    (hd : lookupKey (fun x : Deployment => x.key) s.deployments req = none)
    (hs : lookupKey (fun x : Service => x.key) s.services req = none)
    (hr : lookupKey (fun x : Route => x.key) s.routes req = none) :
    (reconcileTimes noFaults req 3 s).1 =
      [(RequeueSoon,
          [⟨.getJupyterlab req, none⟩, ⟨.getDeployment req, some .NotFound⟩,
           ⟨.createDeployment (deploymentForJupyterlab m), none⟩]),
       (RequeueSoon,
          [⟨.getJupyterlab req, none⟩, ⟨.getDeployment req, none⟩,
           ⟨.getService req, some .NotFound⟩,
           ⟨.createService (serviceForJupyterLab m), none⟩]),
       (RequeueSoon,
          [⟨.getJupyterlab req, none⟩, ⟨.getDeployment req, none⟩, ⟨.getService req, none⟩,
           ⟨.getRoute req, some .NotFound⟩,
           ⟨.createRoute (routeForJupyterlab m), none⟩])] ∧
    (reconcileTimes noFaults req 3 s).2 =
      { s with
        deployments := s.deployments ++ [deploymentForJupyterlab m]
        services := s.services ++ [serviceForJupyterLab m]
        routes := s.routes ++ [routeForJupyterlab m] } ∧
    lookupKey (fun x : Deployment => x.key) (reconcileTimes noFaults req 3 s).2.deployments req
      = some (deploymentForJupyterlab m) ∧
    lookupKey (fun x : Service => x.key) (reconcileTimes noFaults req 3 s).2.services req
      = some (serviceForJupyterLab m) ∧
    lookupKey (fun x : Route => x.key) (reconcileTimes noFaults req 3 s).2.routes req
      = some { newRoute m.Name m.Namespace (m.Name ++ "-server") 8888 with
          toObjectMeta := SetControllerReference m
            (newRoute m.Name m.Namespace (m.Name ++ "-server") 8888).toObjectMeta } ∧
    lookupKey (fun x : Route => x.key) (reconcileTimes noFaults req 2 s).2.routes req = none := by
  have hk : m.key = req := lookupKey_some_key (fun x : Jupyterlab => x.key) _ _ _ hm
  have h1 := reconcile_creates_deployment s req m hm hd
  have hd1 : lookupKey (fun x : Deployment => x.key)
      (s.deployments ++ [deploymentForJupyterlab m]) req = some (deploymentForJupyterlab m) :=
    lookupKey_append_new _ _ _ _ hd (by rw [deploymentForJupyterlab_key]; exact hk)
  have h2 := reconcile_creates_service
    { s with deployments := s.deployments ++ [deploymentForJupyterlab m] } req m
    (deploymentForJupyterlab m) hm hd1 rfl hs
  have hs2 : lookupKey (fun x : Service => x.key)
      (s.services ++ [serviceForJupyterLab m]) req = some (serviceForJupyterLab m) :=
    lookupKey_append_new _ _ _ _ hs (by rw [serviceForJupyterLab_key]; exact hk)
  have h3 := reconcile_creates_route
    { s with
      deployments := s.deployments ++ [deploymentForJupyterlab m]
      services := s.services ++ [serviceForJupyterLab m] } req m
    (deploymentForJupyterlab m) (serviceForJupyterLab m) hm hd1 rfl hs2 hr
  have hr3 : lookupKey (fun x : Route => x.key)
      (s.routes ++ [routeForJupyterlab m]) req = some (routeForJupyterlab m) :=
    lookupKey_append_new _ _ _ _ hr (by rw [routeForJupyterlab_key]; exact hk)
  simp only [reconcileTimes, h1, h2, h3]
  exact ⟨trivial, trivial, hd1, hs2, hr3, hr⟩

/-- Claim C1 at `lab` in the store that holds nothing else. -/
theorem convergence_witness :
    (reconcileTimes noFaults labKey 3 freshStore).1.map (fun r => r.1)
      = [RequeueSoon, RequeueSoon, RequeueSoon] ∧
    (reconcileTimes noFaults labKey 3 freshStore).2 =
      { jupyterlabs := [lab], deployments := [deploymentForJupyterlab lab],
        services := [serviceForJupyterLab lab], routes := [routeForJupyterlab lab],
        pods := [] } :=
  have h := convergence freshStore labKey lab (by decide) (by decide) (by decide) (by decide)
  ⟨by rw [h.1]; rfl, h.2.1⟩

/-! ## Idempotence -/

/-- Claim C2, refuted as stated. In a store where `lab` exists, its Deployment, Service
and Route are the builder outputs and the pods `pod-a`, `pod-b` are live, with
`Status.Nodes` holding the same names as the permutation `pod-b`, `pod-a`, the first
invocation of Reconcile issues a Status().Update and changes the store; and so it does
with no live pod and `Status.Nodes` the empty non-nil slice. -/
theorem idempotence_fails_on_set_equal_status :
    (lookupKey (fun x : Jupyterlab => x.key)
        (convergedStore (some ["pod-b", "pod-a"]) twoPods).jupyterlabs labKey
        = some { lab with Status := { Nodes := some ["pod-b", "pod-a"] } } ∧
      lookupKey (fun x : Deployment => x.key)
        (convergedStore (some ["pod-b", "pod-a"]) twoPods).deployments labKey
        = some (deploymentForJupyterlab { lab with Status := { Nodes := some ["pod-b", "pod-a"] } }) ∧
      lookupKey (fun x : Service => x.key)
        (convergedStore (some ["pod-b", "pod-a"]) twoPods).services labKey
        = some (serviceForJupyterLab { lab with Status := { Nodes := some ["pod-b", "pod-a"] } }) ∧
      lookupKey (fun x : Route => x.key)
        (convergedStore (some ["pod-b", "pod-a"]) twoPods).routes labKey
        = some (routeForJupyterlab { lab with Status := { Nodes := some ["pod-b", "pod-a"] } }) ∧
      List.Perm ["pod-b", "pod-a"]
        ((selectPods (convergedStore (some ["pod-b", "pod-a"]) twoPods).pods "ns"
          (labelsForJupyterlab "lab")).map (fun p => p.Name)) ∧
      ((reconcileTimes noFaults labKey 1 (convergedStore (some ["pod-b", "pod-a"]) twoPods)).1.map
          (fun r => r.2.filter (fun e => e.call.isWrite)))
        = [[⟨.statusUpdate { lab with Status := { Nodes := some ["pod-a", "pod-b"] } }, none⟩]] ∧
      (reconcileTimes noFaults labKey 1 (convergedStore (some ["pod-b", "pod-a"]) twoPods)).2
        ≠ convergedStore (some ["pod-b", "pod-a"]) twoPods) ∧
    (selectPods (convergedStore (some []) []).pods "ns" (labelsForJupyterlab "lab") = [] ∧
      ((reconcileTimes noFaults labKey 1 (convergedStore (some []) [])).1.map
          (fun r => r.2.filter (fun e => e.call.isWrite)))
        = [[⟨.statusUpdate { lab with Status := { Nodes := none } }, none⟩]] ∧
      (reconcileTimes noFaults labKey 1 (convergedStore (some []) [])).2
        ≠ convergedStore (some []) []) := by
  refine ⟨⟨by decide, by decide, by decide, by decide, ?_, by decide, by decide⟩,
    by decide, by decide, by decide⟩
  have hsel : (selectPods (convergedStore (some ["pod-b", "pod-a"]) twoPods).pods "ns"
      (labelsForJupyterlab "lab")).map (fun p => p.Name) = ["pod-a", "pod-b"] := by decide
  rw [hsel]
  exact List.Perm.swap _ _ _

/-- Claim C2, amended. For a store in which the Jupyterlab object `m` of the key exists, a
Deployment of its name exists with replica count `Spec.Size`, a Service and a Route of
its name exist (in particular when the three are the builder outputs), and `Status.Nodes`
equals, as `reflect.DeepEqual` compares, the slice of the names of the live pods that
labelsForJupyterlab selects (the names in list order, the nil slice when there is no
pod), every one of `N ≥ 1` repeated invocations of Reconcile, the store calls answering
from the state, returns Done and issues only reads: no Create, no Update, no
Status().Update. The store is unchanged. -/
theorem idempotence (s : Store) (req : NamespacedName) (m : Jupyterlab)
    (found : Deployment) (foundService : Service) (foundRoute : Route)
    (hm : lookupKey (fun x : Jupyterlab => x.key) s.jupyterlabs req = some m)
    (hd : lookupKey (fun x : Deployment => x.key) s.deployments req = some found)
    (hrep : found.Spec.Replicas = some m.Spec.Size)
    (hs : lookupKey (fun x : Service => x.key) s.services req = some foundService)
    (hr : lookupKey (fun x : Route => x.key) s.routes req = some foundRoute)
    (hst : m.Status.Nodes
      = getPodNames (selectPods s.pods m.Namespace (labelsForJupyterlab m.Name)))
    (N : Nat) (hN : 1 ≤ N) :
    (reconcileTimes noFaults req N s).2 = s ∧
    (reconcileTimes noFaults req N s).1.length = N ∧
    (reconcileTimes noFaults req N s).1 ≠ [] ∧
    ∀ r ∈ (reconcileTimes noFaults req N s).1,
      r.1 = Done ∧ ∀ e ∈ r.2, e.call.isWrite = false := by
  have hstep := reconcile_steady s req m found foundService foundRoute hm hd hrep hs hr hst
  have hall : ∀ n : Nat, (reconcileTimes noFaults req n s).2 = s ∧
      (reconcileTimes noFaults req n s).1.length = n ∧
      ∀ r ∈ (reconcileTimes noFaults req n s).1,
        r.1 = Done ∧ ∀ e ∈ r.2, e.call.isWrite = false := by
    intro n
    induction n with
    | zero => simp [reconcileTimes]
    | succ n ih =>
      obtain ⟨ih1, ih2, ih3⟩ := ih
      simp only [reconcileTimes, hstep]
      refine ⟨ih1, by simp [ih2], ?_⟩
      intro r hr
      rcases List.mem_cons.mp hr with h | h
      · subst h
        simp [Call.isWrite]
      · exact ih3 r h
  obtain ⟨h1, h2, h3⟩ := hall N
  refine ⟨h1, h2, ?_, h3⟩
  intro h
  rw [h] at h2
  simp at h2
  omega

/-- Claim C2, amended, at `lab`, converged, with two pods whose names are its `Status.Nodes`:
two invocations. -/
theorem idempotence_witness :
    (reconcileTimes noFaults labKey 2 (convergedStore (some ["pod-a", "pod-b"]) twoPods)).2
      = convergedStore (some ["pod-a", "pod-b"]) twoPods ∧
    (reconcileTimes noFaults labKey 2 (convergedStore (some ["pod-a", "pod-b"]) twoPods)).1.length
      = 2 ∧
    (reconcileTimes noFaults labKey 2 (convergedStore (some ["pod-a", "pod-b"]) twoPods)).1
      ≠ [] ∧
    ∀ r ∈ (reconcileTimes noFaults labKey 2
        (convergedStore (some ["pod-a", "pod-b"]) twoPods)).1,
      r.1 = Done ∧ ∀ e ∈ r.2, e.call.isWrite = false :=
  idempotence (convergedStore (some ["pod-a", "pod-b"]) twoPods) labKey
    { lab with Status := { Nodes := some ["pod-a", "pod-b"] } }
    (deploymentForJupyterlab lab) (serviceForJupyterLab lab) (routeForJupyterlab lab)
    (by decide) (by decide) (by decide) (by decide) (by decide) (by decide) 2 (by decide)

/-- Claim C10 at `lab`, converged but for its status, with two pods: the invocation
writes the status and returns Done. -/
theorem done_implies_converged_witness :
    (Reconcile noFaults (convergedStore none twoPods) labKey).1 = Done ∧
    ∃ (found : Deployment) (foundService : Service) (foundRoute : Route) (items : List Pod),
      Client.getDeployment noFaults (convergedStore none twoPods)
        { Name := lab.Name, Namespace := lab.Namespace } = .ok found ∧
      found.Name = lab.Name ∧
      found.Spec.Replicas = some lab.Spec.Size ∧
      Client.getService noFaults (convergedStore none twoPods)
        { Name := lab.Name, Namespace := lab.Namespace } = .ok foundService ∧
      foundService.Name = lab.Name ∧
      Client.getRoute noFaults (convergedStore none twoPods)
        { Name := lab.Name, Namespace := lab.Namespace } = .ok foundRoute ∧
      foundRoute.Name = lab.Name ∧
      Client.listPods noFaults (convergedStore none twoPods) lab.Namespace
        (labelsForJupyterlab lab.Name) = .ok items ∧
      (Reconcile noFaults (convergedStore none twoPods) labKey).2.2.take 5 =
        [⟨.getJupyterlab labKey, none⟩, ⟨.getDeployment labKey, none⟩,
         ⟨.getService labKey, none⟩, ⟨.getRoute labKey, none⟩,
         ⟨.listPods lab.Namespace (labelsForJupyterlab lab.Name), none⟩] ∧
      (∀ e ∈ (Reconcile noFaults (convergedStore none twoPods) labKey).2.2,
        e.call.isCreate = false ∧ e.call.isDeploymentUpdate = false) ∧
      ∃ m2 : Jupyterlab,
        lookupKey (fun x : Jupyterlab => x.key)
          (Reconcile noFaults (convergedStore none twoPods) labKey).2.1.jupyterlabs labKey
          = some m2 ∧
        m2.Status.Nodes = getPodNames items ∧
        m2.Status.Nodes.getD [] = items.map (fun p => p.Name) :=
  ⟨by decide,
   done_implies_converged noFaults (convergedStore none twoPods) labKey lab
    (by decide) (by decide)⟩

/-! ## The target of the Route -/

/-- Claim C8, evaluated at `lab` with its Deployment and Service in place: the Route
that Reconcile creates is built by newRoute with the service name `lab-server`, while the
Service built for `lab` is named `lab` and no Service `lab-server` is in the store; the
port argument 8888 is the port of `jupyterlabPort`, the single port of that Service. -/
theorem route_targets_another_service_name :
    (Reconcile noFaults noRouteStore labKey).2.2.getLast?
      = some ⟨.createRoute (routeForJupyterlab lab), none⟩ ∧
    routeForJupyterlab lab =
      { newRoute "lab" "ns" "lab-server" 8888 with
        toObjectMeta := SetControllerReference lab (newRoute "lab" "ns" "lab-server" 8888).toObjectMeta } ∧
    (routeForJupyterlab lab).Spec.To = "lab-server" ∧
    (serviceForJupyterLab lab).Name = "lab" ∧
    (routeForJupyterlab lab).Spec.To ≠ (serviceForJupyterLab lab).Name ∧
    lookupKey (fun x : Service => x.key) (Reconcile noFaults noRouteStore labKey).2.1.services
      { Namespace := "ns", Name := "lab-server" } = none ∧
    (routeForJupyterlab lab).Spec.TargetPort = jupyterlabPort.port ∧
    (serviceForJupyterLab lab).Spec.Ports.map (fun p => p.Port) = [jupyterlabPort.port] := by
  decide

/-! ## The label convention -/

/-- Claim C9. For all Jupyterlab objects `m1` and `m2`, a pod that carries exactly the
pod-template labels of deploymentForJupyterlab m2 is matched by the selector
labelsForJupyterlab m1.Name if and only if `m1.Name = m2.Name`; every pod list that
Reconcile issues for `m1` uses that selector, in the namespace of `m1`; and the
Deployment selector, the pod-template labels and the Service selector built for `m1` all
equal labelsForJupyterlab m1.Name. -/
theorem labels_keyed_by_name (m1 m2 : Jupyterlab) :
    (∀ pod : Pod, pod.Labels = (deploymentForJupyterlab m2).Spec.Template.Labels →
      (matchesLabels (labelsForJupyterlab m1.Name) pod.Labels = true ↔ m1.Name = m2.Name)) ∧
    (∀ (f : Faults) (s : Store) (req : NamespacedName),
      Client.getJupyterlab f s req = .ok m1 →
      ∀ e ∈ (Reconcile f s req).2.2, ∀ (ns : String) (sel : Labels),
        e.call = .listPods ns sel → ns = m1.Namespace ∧ sel = labelsForJupyterlab m1.Name) ∧
    (deploymentForJupyterlab m1).Spec.Selector
      = some { MatchLabels := labelsForJupyterlab m1.Name } ∧
    (deploymentForJupyterlab m1).Spec.Template.Labels = labelsForJupyterlab m1.Name ∧
    (serviceForJupyterLab m1).Spec.Selector = labelsForJupyterlab m1.Name := by
  refine ⟨?_, fun f s req hm => listPods_selector f s req m1 hm, rfl, rfl, rfl⟩
  intro pod hpod
  have ht : (deploymentForJupyterlab m2).Spec.Template.Labels = labelsForJupyterlab m2.Name := rfl
  rw [hpod, ht]
  simp [matchesLabels, labelsForJupyterlab, List.lookup]
  constructor
  · intro h
    exact h.symm
  · intro h
    exact h.symm

/-- Claim C9 at `lab` and `otherLab`: the pods of `lab` are selected for `lab` and not
for `otherLab`. -/
theorem labels_keyed_by_name_witness :
    matchesLabels (labelsForJupyterlab lab.Name) (labPod "pod-a").Labels = true ∧
    ¬ matchesLabels (labelsForJupyterlab otherLab.Name) (labPod "pod-a").Labels = true :=
  ⟨((labels_keyed_by_name lab lab).1 (labPod "pod-a") rfl).mpr rfl,
   fun h => absurd (((labels_keyed_by_name otherLab lab).1 (labPod "pod-a") rfl).mp h)
     (by decide)⟩

end JupyterlabOperator
